import Mathlib

/-!
Verification development for the double-pendulum visualiser.

The development shallowly embeds the core of the repository:

* `src/physics.py` — `DoublePendulumPhysics`: the Lagrangian derivation of the
  two angular accelerations and the total-energy function.  The sympy
  pipeline builds the two Euler–Lagrange equations (linear in the two angular
  accelerations) and calls `sp.solve` on that 2×2 linear system; here the
  system (`eq1`, `eq2`) is written out from the Lagrangian of
  `derive_equations`, and `accel1_f`/`accel2_f` are its closed-form solution
  by Cramer's rule.  The lemma `accel_solves_euler_lagrange` checks that the
  closed forms do solve the system whenever its determinant is nonzero, which
  is what `sp.solve` returns.
* `src/simulator.py` — `Simulator.run`: the sampling grid `np.arange(0, t_max, dt)`
  (modelled over ℚ so grid arithmetic is exact), the state-derivative
  function `deriv` handed to the solver, and the handling of the solver's
  output.  `scipy.integrate.odeint` is an external numerical routine, so
  `run` takes the solver as an explicit functional argument `odeint`
  returning the computed rows and the diagnostic message; the lines written
  to stdout are collected in the `printed` field, and the Python return
  value is the pair of the `t` and `states` fields.
* `src/analysis.py` — `SimulationAnalyzer`: the pandas frame is modelled as
  an association list of (column name, column) pairs in pandas insertion
  order; elementwise numpy/pandas arithmetic becomes `List.map`/`List.zipWith`.

Machine floating point is modelled by exact real arithmetic, so equalities
"up to floating-point rounding" are proved as exact equalities over ℝ.
-/

namespace PendulumVisualizer

/-- State vector `[theta1, theta2, omega1, omega2]` (angles in radians,
angular velocities in radians/second), the integration variable of
`Simulator.run`. -/
abbrev State : Type := ℝ × ℝ × ℝ × ℝ

/-- Parameter tuple `(m1, m2, l1, l2, g)` stored as `self.params` by
`Simulator.__init__` and passed to `SimulationAnalyzer`. -/
abbrev Params : Type := ℝ × ℝ × ℝ × ℝ × ℝ

namespace DoublePendulumPhysics

/-- First Euler–Lagrange residual `d/dt(∂L/∂θ̇1) − ∂L/∂θ1` of
`derive_equations` in `src/physics.py`, with the second derivatives named
`a1`, `a2` and the first derivatives substituted by `w1`, `w2` (the
substitution performed before lambdification).  The Lagrangian is `L = T − V`
with `T = ½m1v1² + ½m2v2²`, `V = m1·g·y1 + m2·g·y2` over the coordinates
`x1 = l1 sin θ1, y1 = −l1 cos θ1, x2 = x1 + l2 sin θ2, y2 = y1 − l2 cos θ2`;
expanding the derivatives gives this residual. -/
noncomputable def eq1 (m1 m2 l1 l2 g th1 th2 w1 w2 a1 a2 : ℝ) : ℝ :=
  (m1 + m2) * l1 ^ 2 * a1 + m2 * l1 * l2 * Real.cos (th1 - th2) * a2
    + m2 * l1 * l2 * Real.sin (th1 - th2) * w2 ^ 2
    + (m1 + m2) * g * l1 * Real.sin th1

/-- Second Euler–Lagrange residual `d/dt(∂L/∂θ̇2) − ∂L/∂θ2` of
`derive_equations`, in the same variables as `eq1`. -/
noncomputable def eq2 (m1 m2 l1 l2 g th1 th2 w1 w2 a1 a2 : ℝ) : ℝ :=
  m2 * l2 ^ 2 * a2 + m2 * l1 * l2 * Real.cos (th1 - th2) * a1
    - m2 * l1 * l2 * Real.sin (th1 - th2) * w1 ^ 2
    + m2 * g * l2 * Real.sin th2

/-- Closed-form angular acceleration `theta1_dd` solved from the 2×2 linear
system `{eq1 = 0, eq2 = 0}` (what `sp.solve` produces in
`derive_equations`), lambdified in `get_numerical_funcs` with argument
order `(t, m1, m2, l1, l2, g, theta1, theta2, w1, w2)`.  The solved
expression contains no occurrence of `t`: the system is autonomous. -/
noncomputable def accel1_f (t m1 m2 l1 l2 g th1 th2 w1 w2 : ℝ) : ℝ :=
  ((-(m2 * l1 * l2 * Real.sin (th1 - th2) * w2 ^ 2)
      - (m1 + m2) * g * l1 * Real.sin th1) * (m2 * l2 ^ 2)
    - (m2 * l1 * l2 * Real.sin (th1 - th2) * w1 ^ 2
      - m2 * g * l2 * Real.sin th2) * (m2 * l1 * l2 * Real.cos (th1 - th2)))
  / ((m1 + m2) * l1 ^ 2 * (m2 * l2 ^ 2) - (m2 * l1 * l2 * Real.cos (th1 - th2)) ^ 2)

/-- Closed-form angular acceleration `theta2_dd`, the second component of the
same linear solve; same argument order, and again `t` does not occur in the
solved expression. -/
noncomputable def accel2_f (t m1 m2 l1 l2 g th1 th2 w1 w2 : ℝ) : ℝ :=
  ((m1 + m2) * l1 ^ 2 * (m2 * l1 * l2 * Real.sin (th1 - th2) * w1 ^ 2
      - m2 * g * l2 * Real.sin th2)
    - (m2 * l1 * l2 * Real.cos (th1 - th2))
      * (-(m2 * l1 * l2 * Real.sin (th1 - th2) * w2 ^ 2)
        - (m1 + m2) * g * l1 * Real.sin th1))
  / ((m1 + m2) * l1 ^ 2 * (m2 * l2 ^ 2) - (m2 * l1 * l2 * Real.cos (th1 - th2)) ^ 2)

/-- Determinant of the 2×2 linear system `{eq1 = 0, eq2 = 0}` in
`(a1, a2)`; it equals `m2·l1²·l2²·(m1 + m2·sin²(θ1−θ2))` and is positive for
physically valid parameters. -/
noncomputable def accelDet (m1 m2 l1 l2 th1 th2 : ℝ) : ℝ :=
  (m1 + m2) * l1 ^ 2 * (m2 * l2 ^ 2) - (m2 * l1 * l2 * Real.cos (th1 - th2)) ^ 2

/-- Total mechanical energy `E = T + V` as built by `get_energy_func` in
`src/physics.py`: the symbolic velocities `d x_i/dt`, `d y_i/dt` are expanded
by sympy's differentiation and the raw derivatives substituted by `w1`, `w2`;
the lambdified function keeps the unsimplified shape below, with the same
ten-argument signature as the acceleration evaluators (`t` unused). -/
noncomputable def energy_func (t m1 m2 l1 l2 g th1 th2 w1 w2 : ℝ) : ℝ :=
  0.5 * m1 * ((l1 * Real.cos th1 * w1) ^ 2 + (l1 * Real.sin th1 * w1) ^ 2)
    + 0.5 * m2 * ((l1 * Real.cos th1 * w1 + l2 * Real.cos th2 * w2) ^ 2
      + (l1 * Real.sin th1 * w1 + l2 * Real.sin th2 * w2) ^ 2)
    + (m1 * g * (-(l1 * Real.cos th1)) + m2 * g * (-(l1 * Real.cos th1) - l2 * Real.cos th2))

end DoublePendulumPhysics

namespace Simulator

/-- Number of samples of `np.arange(start, stop, step)`:
`max(0, ceil((stop − start)/step))`. -/
def arangeLen (l r step : ℚ) : ℕ := (Int.ceil ((r - l) / step)).toNat

/-- The grid `np.arange(start, stop, step)` of `Simulator.run`, modelled over
ℚ: the samples `start + i·step` for `i = 0..len−1`.  Faithful for
`step ≠ 0`; at `step = 0` the Python call raises a `ZeroDivisionError`
inside `np.arange`, an error path this embedding does not model, so theorems
about that grid carry a `step ≠ 0` (or `0 < step`) hypothesis. -/
def arange (l r step : ℚ) : List ℚ :=
  (List.range (arangeLen l r step)).map (fun (i : ℕ) => l + (i : ℚ) * step)

/-- Output of the external ODE solver (`scipy.integrate.odeint` with
`full_output=True`): the computed state rows and the diagnostic
`info['message']`. -/
structure OdeResult where
  states : List State
  message : String

/-- Result of `Simulator.run`.  `printed` holds the lines the call writes to
stdout; the Python function's return value is the pair `(t, states)`. -/
structure RunResult where
  printed : List String
  t : List ℚ
  states : List State

/-- The derivative function `deriv(state, t)` defined inside `Simulator.run`:
returns `[omega1, omega2, a1, a2]` with the accelerations obtained from the
compiled evaluators at `(t, m1, m2, l1, l2, g, theta1, theta2, omega1,
omega2)`. -/
noncomputable def deriv (m1 m2 l1 l2 g : ℝ) (state : State) (t : ℝ) : State :=
  (state.2.2.1, state.2.2.2,
   DoublePendulumPhysics.accel1_f t m1 m2 l1 l2 g state.1 state.2.1 state.2.2.1 state.2.2.2,
   DoublePendulumPhysics.accel2_f t m1 m2 l1 l2 g state.1 state.2.1 state.2.2.1 state.2.2.2)

/-- `Simulator.run(initial_state, t_max, dt)` from `src/simulator.py`:
builds the grid `np.arange(0, t_max, dt)`, hands `deriv` and the grid to the
solver, prints a warning when the solver's message is not
`'Integration successful.'`, and returns the grid and the solver's rows
unchanged.  The numerical solver is passed in as the functional argument
`odeint`.  No validation of any parameter happens anywhere on this path. -/
noncomputable def run (odeint : (State → ℝ → State) → State → List ℚ → OdeResult)
    (m1 m2 l1 l2 g : ℝ) (initial_state : State) (t_max dt : ℚ) : RunResult :=
  let t := arange 0 t_max dt
  let result := odeint (deriv m1 m2 l1 l2 g) initial_state t
  let warn :=
    if result.message = "Integration successful." then ([] : List String)
    else ["Warning: ODE integration message: " ++ result.message]
  { printed := ("Starting simulation for " ++ toString t_max ++ " seconds...")
      :: "Simulation complete." :: warn,
    t := t,
    states := result.states }

/-- A concrete stand-in solver used to instantiate `run` at closed inputs:
it returns one row per requested time (the initial state, unchanged) and the
message `odeint` produces on a fully successful integration. -/
def constOdeint : (State → ℝ → State) → State → List ℚ → OdeResult :=
  fun _ s ts => { states := ts.map (fun _ => s),
                  message := "Integration successful." }

end Simulator

namespace SimulationAnalyzer

/-- A pandas `DataFrame` restricted to what the analyzer uses: an ordered
association list of column name / column pairs; `df[name] = col` appends a
fresh column at the end, which is exactly how every column of the analyzer
is created. -/
abbrev DataFrame : Type := List (String × List ℝ)

/-- Column access `df[name]` (empty if absent; every lookup in the analyzer
is on a present name). -/
def getCol (df : DataFrame) (c : String) : List ℝ := (df.lookup c).getD []

/-- `SimulationAnalyzer._create_dataframe`: the frame built from the state
columns, then `t`, then the Cartesian coordinates, in pandas insertion
order. -/
noncomputable def create_dataframe (t : List ℝ) (states : List State) (p : Params) : DataFrame :=
  let l1 := p.2.2.1
  let l2 := p.2.2.2.1
  let theta1 := states.map (fun s => s.1)
  let theta2 := states.map (fun s => s.2.1)
  let omega1 := states.map (fun s => s.2.2.1)
  let omega2 := states.map (fun s => s.2.2.2)
  let x1 := theta1.map (fun a => l1 * Real.sin a)
  let y1 := theta1.map (fun a => -l1 * Real.cos a)
  let x2 := List.zipWith (fun a b => a + l2 * Real.sin b) x1 theta2
  let y2 := List.zipWith (fun a b => a - l2 * Real.cos b) y1 theta2
  [("theta1", theta1), ("theta2", theta2), ("omega1", omega1), ("omega2", omega2),
   ("t", t), ("x1", x1), ("y1", y1), ("x2", x2), ("y2", y2)]

/-- `SimulationAnalyzer.calculate_energy`: appends the `T`, `V`, `E` columns
computed elementwise from the closed-form kinematic velocities; it reads only
the frame's own columns and never calls the physics engine's compiled
energy evaluator. -/
noncomputable def calculate_energy (df : DataFrame) (p : Params) : DataFrame :=
  let m1 := p.1
  let m2 := p.2.1
  let l1 := p.2.2.1
  let l2 := p.2.2.2.1
  let g := p.2.2.2.2
  let theta1 := getCol df "theta1"
  let theta2 := getCol df "theta2"
  let omega1 := getCol df "omega1"
  let omega2 := getCol df "omega2"
  let vx1 := List.zipWith (fun a b => l1 * Real.cos a * b) theta1 omega1
  let vy1 := List.zipWith (fun a b => l1 * Real.sin a * b) theta1 omega1
  let vx2 := List.zipWith (fun a b => a + b) vx1
    (List.zipWith (fun a b => l2 * Real.cos a * b) theta2 omega2)
  let vy2 := List.zipWith (fun a b => a + b) vy1
    (List.zipWith (fun a b => l2 * Real.sin a * b) theta2 omega2)
  let v1_sq := List.zipWith (fun a b => a ^ 2 + b ^ 2) vx1 vy1
  let v2_sq := List.zipWith (fun a b => a ^ 2 + b ^ 2) vx2 vy2
  let T := List.zipWith (fun a b => 0.5 * m1 * a + 0.5 * m2 * b) v1_sq v2_sq
  let V := List.zipWith (fun a b => m1 * g * a + m2 * g * b)
    (getCol df "y1") (getCol df "y2")
  let E := List.zipWith (fun a b => a + b) T V
  df ++ [("T", T), ("V", V), ("E", E)]

/-- `SimulationAnalyzer.save_csv`: `self.df.to_csv(filename, index=False)`
writes the frame verbatim — the header is the column names in frame order
and the value columns are unchanged; the table written is the frame itself
(the on-disk text encoding is outside the embedding). -/
def save_csv (df : DataFrame) : DataFrame := df

end SimulationAnalyzer

namespace DoublePendulumPhysics

/-- Sanity check that `accel1_f`/`accel2_f` are the solution `sp.solve`
returns: whenever the determinant of the linear system is nonzero, the
closed forms satisfy both Euler–Lagrange equations. -/
lemma accel_solves_euler_lagrange (t m1 m2 l1 l2 g th1 th2 w1 w2 : ℝ)
    (hdet : accelDet m1 m2 l1 l2 th1 th2 ≠ 0) :
    eq1 m1 m2 l1 l2 g th1 th2 w1 w2
        (accel1_f t m1 m2 l1 l2 g th1 th2 w1 w2)
        (accel2_f t m1 m2 l1 l2 g th1 th2 w1 w2) = 0 ∧
    eq2 m1 m2 l1 l2 g th1 th2 w1 w2
        (accel1_f t m1 m2 l1 l2 g th1 th2 w1 w2)
        (accel2_f t m1 m2 l1 l2 g th1 th2 w1 w2) = 0 := by
  unfold eq1 eq2 accel1_f accel2_f
  unfold accelDet at hdet
  constructor
  · field_simp
    ring
  · field_simp
    ring

end DoublePendulumPhysics

namespace Simulator

/-- Membership bound for the `np.arange` grid: index `i` is on the grid
exactly when its sample time `i·dt` lies strictly before `t_max`. -/
lemma lt_arangeLen_iff (t_max dt : ℚ) (hdt : 0 < dt) (i : ℕ) :
    i < arangeLen 0 t_max dt ↔ (i : ℚ) * dt < t_max := by
  rw [arangeLen, sub_zero, Int.lt_toNat, Int.lt_ceil]
  push_cast
  rw [lt_div_iff₀ hdt]

/-- Length of the modelled `np.arange` grid. -/
lemma arange_length (t_max dt : ℚ) : (arange 0 t_max dt).length = arangeLen 0 t_max dt := by
  rw [arange, List.length_map, List.length_range]

/-- The `i`-th sample of the grid `np.arange(0, t_max, dt)` is `i·dt`. -/
lemma arange_get (t_max dt : ℚ) (i : ℕ) (h : i < (arange 0 t_max dt).length) :
    (arange 0 t_max dt).get ⟨i, h⟩ = (i : ℚ) * dt := by
  simp only [arange, List.get_eq_getElem, List.getElem_map, List.getElem_range, zero_add]

end Simulator

/-- C1, counterexample: with `t_max = 1` and `dt = 3/10` the solver reports
full success and returns one row per grid point, yet `Simulator.run` returns
4 samples while `⌊t_max/dt⌋ = 3`: the sample count is the number of grid
points `i·dt < t_max`, which is `⌈t_max/dt⌉`, not `⌊t_max/dt⌋`. -/
theorem C1_sample_count_counterexample :
    (Simulator.constOdeint (Simulator.deriv 1 1 1 1 9.81)
        ((0:ℝ), (0:ℝ), (0:ℝ), (0:ℝ)) (Simulator.arange 0 1 (3/10))).message
      = "Integration successful." ∧
    (Simulator.run Simulator.constOdeint 1 1 1 1 9.81
        ((0:ℝ), (0:ℝ), (0:ℝ), (0:ℝ)) 1 (3/10)).states.length = 4 ∧
    (Int.floor ((1:ℚ) / (3/10))).toNat = 3 := by
  have h4 : Simulator.arangeLen 0 1 (3/10) = 4 := by
    rw [Simulator.arangeLen]
    rw [show Int.ceil (((1:ℚ) - 0) / (3/10)) = 4 by rw [Int.ceil_eq_iff]; norm_num]
    rfl
  refine ⟨rfl, ?_, ?_⟩
  · have hs : (Simulator.run Simulator.constOdeint 1 1 1 1 9.81
        ((0:ℝ), (0:ℝ), (0:ℝ), (0:ℝ)) 1 (3/10)).states
        = (Simulator.arange 0 1 (3/10)).map (fun _ => ((0:ℝ), (0:ℝ), (0:ℝ), (0:ℝ))) := rfl
    rw [hs, List.length_map, Simulator.arange_length, h4]
  · rw [show Int.floor ((1:ℚ) / (3/10)) = 3 by norm_num]
    rfl

/-- C1 (amended): for every `t_max > 0` and `dt > 0`, `Simulator.run` samples
the uniform half-open grid `t_i = i·dt`, `i = 0, 1, …` while `t_i < t_max`,
and the number of returned samples equals `⌈t_max/dt⌉` — which coincides with
`⌊t_max/dt⌋` only when `dt` divides `t_max`; the state rows have that same
count whenever the solver returns one row per requested time (as it does on
full success). -/
theorem C1_sampling_grid_amended
    (odeint : (State → ℝ → State) → State → List ℚ → Simulator.OdeResult)
    (m1 m2 l1 l2 g : ℝ) (s : State) (t_max dt : ℚ)
    (ht : 0 < t_max) (hdt : 0 < dt)
    (hfull : (odeint (Simulator.deriv m1 m2 l1 l2 g) s
        (Simulator.arange 0 t_max dt)).states.length
      = (Simulator.arange 0 t_max dt).length) :
    (Simulator.run odeint m1 m2 l1 l2 g s t_max dt).t.length
      = (Int.ceil (t_max / dt)).toNat ∧
    (Simulator.run odeint m1 m2 l1 l2 g s t_max dt).states.length
      = (Int.ceil (t_max / dt)).toNat ∧
    (∀ i (hi : i < (Simulator.run odeint m1 m2 l1 l2 g s t_max dt).t.length),
      (Simulator.run odeint m1 m2 l1 l2 g s t_max dt).t.get ⟨i, hi⟩ = (i : ℚ) * dt ∧
      (i : ℚ) * dt < t_max) ∧
    (∀ i : ℕ, (i : ℚ) * dt < t_max →
      i < (Simulator.run odeint m1 m2 l1 l2 g s t_max dt).t.length) := by
  have hT : (Simulator.run odeint m1 m2 l1 l2 g s t_max dt).t
      = Simulator.arange 0 t_max dt := rfl
  have hS : (Simulator.run odeint m1 m2 l1 l2 g s t_max dt).states
      = (odeint (Simulator.deriv m1 m2 l1 l2 g) s (Simulator.arange 0 t_max dt)).states := rfl
  have hlen : (Simulator.arange 0 t_max dt).length = (Int.ceil (t_max / dt)).toNat := by
    rw [Simulator.arange_length, Simulator.arangeLen, sub_zero]
  refine ⟨by rw [hT, hlen], by rw [hS, hfull, hlen], ?_, ?_⟩
  · intro i hi
    have hi2 : i < (Simulator.arange 0 t_max dt).length := hi
    rw [Simulator.arange_length] at hi2
    exact ⟨Simulator.arange_get t_max dt i hi,
      (Simulator.lt_arangeLen_iff t_max dt hdt i).mp hi2⟩
  · intro i hlt
    have hmem : i < Simulator.arangeLen 0 t_max dt :=
      (Simulator.lt_arangeLen_iff t_max dt hdt i).mpr hlt
    show i < (Simulator.arange 0 t_max dt).length
    rw [Simulator.arange_length]
    exact hmem

/-- Witness for `C1_sampling_grid_amended` at `t_max = 1`, `dt = 3/10` with
the concrete fully-successful solver. -/
theorem C1_sampling_grid_amended_witness :
    ((0:ℚ) < 1 ∧ (0:ℚ) < 3/10 ∧
      (Simulator.constOdeint (Simulator.deriv 1 1 1 1 9.81)
          ((0:ℝ), (0:ℝ), (0:ℝ), (0:ℝ)) (Simulator.arange 0 1 (3/10))).states.length
        = (Simulator.arange 0 1 (3/10)).length) ∧
    ((Simulator.run Simulator.constOdeint 1 1 1 1 9.81
        ((0:ℝ), (0:ℝ), (0:ℝ), (0:ℝ)) 1 (3/10)).t.length
      = (Int.ceil ((1:ℚ) / (3/10))).toNat ∧
    (Simulator.run Simulator.constOdeint 1 1 1 1 9.81
        ((0:ℝ), (0:ℝ), (0:ℝ), (0:ℝ)) 1 (3/10)).states.length
      = (Int.ceil ((1:ℚ) / (3/10))).toNat ∧
    (∀ i (hi : i < (Simulator.run Simulator.constOdeint 1 1 1 1 9.81
        ((0:ℝ), (0:ℝ), (0:ℝ), (0:ℝ)) 1 (3/10)).t.length),
      (Simulator.run Simulator.constOdeint 1 1 1 1 9.81
        ((0:ℝ), (0:ℝ), (0:ℝ), (0:ℝ)) 1 (3/10)).t.get ⟨i, hi⟩ = (i : ℚ) * (3/10) ∧
      (i : ℚ) * (3/10) < 1) ∧
    (∀ i : ℕ, (i : ℚ) * (3/10) < 1 →
      i < (Simulator.run Simulator.constOdeint 1 1 1 1 9.81
        ((0:ℝ), (0:ℝ), (0:ℝ), (0:ℝ)) 1 (3/10)).t.length)) :=
  ⟨⟨by norm_num, by norm_num, by simp [Simulator.constOdeint]⟩,
   C1_sampling_grid_amended Simulator.constOdeint 1 1 1 1 9.81
     ((0:ℝ), (0:ℝ), (0:ℝ), (0:ℝ)) 1 (3/10) (by norm_num) (by norm_num)
     (by simp [Simulator.constOdeint])⟩

/-- C2, counterexample: a negative mass `m1 = −1` is not rejected —
`Simulator.run` proceeds and computes a trajectory (two samples here) from
the invalid parameters; no error path exists anywhere in
`Simulator.__init__` or `Simulator.run`. -/
theorem C2_no_validation_counterexample :
    ((-1:ℝ) ≤ 0) ∧
    (Simulator.run Simulator.constOdeint (-1) 1 1 1 9.81
        ((0:ℝ), (0:ℝ), (0:ℝ), (0:ℝ)) 1 (1/2)).states.length = 2 := by
  have h2 : Simulator.arangeLen 0 1 (1/2) = 2 := by
    rw [Simulator.arangeLen]
    rw [show Int.ceil (((1:ℚ) - 0) / (1/2)) = 2 by rw [Int.ceil_eq_iff]; norm_num]
    rfl
  refine ⟨by norm_num, ?_⟩
  have hs : (Simulator.run Simulator.constOdeint (-1) 1 1 1 9.81
      ((0:ℝ), (0:ℝ), (0:ℝ), (0:ℝ)) 1 (1/2)).states
      = (Simulator.arange 0 1 (1/2)).map (fun _ => ((0:ℝ), (0:ℝ), (0:ℝ), (0:ℝ))) := rfl
  rw [hs, List.length_map, Simulator.arange_length, h2]

/-- C2 (amended): the code performs no parameter validation — for every
parameter assignment, positive or not, every `t_max` and every nonzero `dt`,
`Simulator.run` builds the grid `np.arange(0, t_max, dt)` and returns the
solver's output unchanged; no `InvalidParameters` rejection exists on any
path (at `dt = 0` the call instead dies inside `np.arange` with a
`ZeroDivisionError`, which is not a parameter-validation error either). -/
theorem C2_no_validation_amended
    (odeint : (State → ℝ → State) → State → List ℚ → Simulator.OdeResult)
    (m1 m2 l1 l2 g : ℝ) (s : State) (t_max dt : ℚ) (hdt : dt ≠ 0) :
    (Simulator.run odeint m1 m2 l1 l2 g s t_max dt).t = Simulator.arange 0 t_max dt ∧
    (Simulator.run odeint m1 m2 l1 l2 g s t_max dt).states
      = (odeint (Simulator.deriv m1 m2 l1 l2 g) s (Simulator.arange 0 t_max dt)).states :=
  ⟨rfl, rfl⟩

/-- Witness for `C2_no_validation_amended` at the invalid mass `m1 = −1`
with `dt = 1/2`. -/
theorem C2_no_validation_amended_witness :
    ((1:ℚ)/2 ≠ 0) ∧
    ((Simulator.run Simulator.constOdeint (-1) 1 1 1 9.81
        ((0:ℝ), (0:ℝ), (0:ℝ), (0:ℝ)) 1 (1/2)).t = Simulator.arange 0 1 (1/2) ∧
    (Simulator.run Simulator.constOdeint (-1) 1 1 1 9.81
        ((0:ℝ), (0:ℝ), (0:ℝ), (0:ℝ)) 1 (1/2)).states
      = (Simulator.constOdeint (Simulator.deriv (-1) 1 1 1 9.81)
          ((0:ℝ), (0:ℝ), (0:ℝ), (0:ℝ)) (Simulator.arange 0 1 (1/2))).states) :=
  ⟨by norm_num, C2_no_validation_amended Simulator.constOdeint (-1) 1 1 1 9.81
    ((0:ℝ), (0:ℝ), (0:ℝ), (0:ℝ)) 1 (1/2) (by norm_num)⟩

lemma getD_map_of_lt {α β : Type} (f : α → β) (l : List α) (i : ℕ)
    (h : i < l.length) (d : β) (d2 : α) :
    (l.map f).getD i d = f (l.getD i d2) := by
  simp [List.getD_eq_getElem?_getD, List.getElem?_eq_getElem, h]

namespace SimulationAnalyzer

/-- The `x1` column of the frame, per sample. -/
lemma x1_getD (tl : List ℝ) (states : List State) (m1 m2 l1 l2 g : ℝ) (i : ℕ)
    (hi : i < states.length) :
    (getCol (create_dataframe tl states (m1, m2, l1, l2, g)) "x1").getD i 0
      = l1 * Real.sin (states.get ⟨i, hi⟩).1 := by
  have h : getCol (create_dataframe tl states (m1, m2, l1, l2, g)) "x1"
      = (states.map (fun s => s.1)).map (fun a => l1 * Real.sin a) := rfl
  rw [h]
  simp [List.getD_eq_getElem?_getD, List.getElem?_map, List.getElem?_eq_getElem, hi]

/-- The `y1` column of the frame, per sample. -/
lemma y1_getD (tl : List ℝ) (states : List State) (m1 m2 l1 l2 g : ℝ) (i : ℕ)
    (hi : i < states.length) :
    (getCol (create_dataframe tl states (m1, m2, l1, l2, g)) "y1").getD i 0
      = -l1 * Real.cos (states.get ⟨i, hi⟩).1 := by
  have h : getCol (create_dataframe tl states (m1, m2, l1, l2, g)) "y1"
      = (states.map (fun s => s.1)).map (fun a => -l1 * Real.cos a) := rfl
  rw [h]
  simp [List.getD_eq_getElem?_getD, List.getElem?_map, List.getElem?_eq_getElem, hi]

/-- The `x2` column of the frame, per sample, fully expanded. -/
lemma x2_getD (tl : List ℝ) (states : List State) (m1 m2 l1 l2 g : ℝ) (i : ℕ)
    (hi : i < states.length) :
    (getCol (create_dataframe tl states (m1, m2, l1, l2, g)) "x2").getD i 0
      = l1 * Real.sin (states.get ⟨i, hi⟩).1 + l2 * Real.sin (states.get ⟨i, hi⟩).2.1 := by
  have h : getCol (create_dataframe tl states (m1, m2, l1, l2, g)) "x2"
      = List.zipWith (fun a b => a + l2 * Real.sin b)
          ((states.map (fun s => s.1)).map (fun a => l1 * Real.sin a))
          (states.map (fun s => s.2.1)) := rfl
  rw [h]
  simp [List.getD_eq_getElem?_getD, List.getElem?_zipWith, List.getElem?_map,
    List.getElem?_eq_getElem, hi]

/-- The `y2` column of the frame, per sample, fully expanded. -/
lemma y2_getD (tl : List ℝ) (states : List State) (m1 m2 l1 l2 g : ℝ) (i : ℕ)
    (hi : i < states.length) :
    (getCol (create_dataframe tl states (m1, m2, l1, l2, g)) "y2").getD i 0
      = -l1 * Real.cos (states.get ⟨i, hi⟩).1 - l2 * Real.cos (states.get ⟨i, hi⟩).2.1 := by
  have h : getCol (create_dataframe tl states (m1, m2, l1, l2, g)) "y2"
      = List.zipWith (fun a b => a - l2 * Real.cos b)
          ((states.map (fun s => s.1)).map (fun a => -l1 * Real.cos a))
          (states.map (fun s => s.2.1)) := rfl
  rw [h]
  simp [List.getD_eq_getElem?_getD, List.getElem?_zipWith, List.getElem?_map,
    List.getElem?_eq_getElem, hi]

/-- The `T` column appended by `calculate_energy`, per sample, in terms of
the closed-form kinematic velocities. -/
lemma T_getD (tl : List ℝ) (states : List State) (m1 m2 l1 l2 g : ℝ) (i : ℕ)
    (hi : i < states.length) :
    (getCol (calculate_energy (create_dataframe tl states (m1, m2, l1, l2, g))
        (m1, m2, l1, l2, g)) "T").getD i 0
      = 0.5 * m1 * ((l1 * Real.cos (states.get ⟨i, hi⟩).1 * (states.get ⟨i, hi⟩).2.2.1) ^ 2
          + (l1 * Real.sin (states.get ⟨i, hi⟩).1 * (states.get ⟨i, hi⟩).2.2.1) ^ 2)
        + 0.5 * m2 * ((l1 * Real.cos (states.get ⟨i, hi⟩).1 * (states.get ⟨i, hi⟩).2.2.1
            + l2 * Real.cos (states.get ⟨i, hi⟩).2.1 * (states.get ⟨i, hi⟩).2.2.2) ^ 2
          + (l1 * Real.sin (states.get ⟨i, hi⟩).1 * (states.get ⟨i, hi⟩).2.2.1
            + l2 * Real.sin (states.get ⟨i, hi⟩).2.1 * (states.get ⟨i, hi⟩).2.2.2) ^ 2) := by
  have h : getCol (calculate_energy (create_dataframe tl states (m1, m2, l1, l2, g))
        (m1, m2, l1, l2, g)) "T"
      = List.zipWith (fun a b => 0.5 * m1 * a + 0.5 * m2 * b)
          (List.zipWith (fun a b => a ^ 2 + b ^ 2)
            (List.zipWith (fun a b => l1 * Real.cos a * b)
              (states.map (fun s => s.1)) (states.map (fun s => s.2.2.1)))
            (List.zipWith (fun a b => l1 * Real.sin a * b)
              (states.map (fun s => s.1)) (states.map (fun s => s.2.2.1))))
          (List.zipWith (fun a b => a ^ 2 + b ^ 2)
            (List.zipWith (fun a b => a + b)
              (List.zipWith (fun a b => l1 * Real.cos a * b)
                (states.map (fun s => s.1)) (states.map (fun s => s.2.2.1)))
              (List.zipWith (fun a b => l2 * Real.cos a * b)
                (states.map (fun s => s.2.1)) (states.map (fun s => s.2.2.2))))
            (List.zipWith (fun a b => a + b)
              (List.zipWith (fun a b => l1 * Real.sin a * b)
                (states.map (fun s => s.1)) (states.map (fun s => s.2.2.1)))
              (List.zipWith (fun a b => l2 * Real.sin a * b)
                (states.map (fun s => s.2.1)) (states.map (fun s => s.2.2.2))))) := rfl
  rw [h]
  simp [List.getD_eq_getElem?_getD, List.getElem?_zipWith, List.getElem?_map,
    List.getElem?_eq_getElem, hi]

/-- The `V` column appended by `calculate_energy`, per sample, fully
expanded. -/
lemma V_getD (tl : List ℝ) (states : List State) (m1 m2 l1 l2 g : ℝ) (i : ℕ)
    (hi : i < states.length) :
    (getCol (calculate_energy (create_dataframe tl states (m1, m2, l1, l2, g))
        (m1, m2, l1, l2, g)) "V").getD i 0
      = m1 * g * (-l1 * Real.cos (states.get ⟨i, hi⟩).1)
        + m2 * g * (-l1 * Real.cos (states.get ⟨i, hi⟩).1
          - l2 * Real.cos (states.get ⟨i, hi⟩).2.1) := by
  have h : getCol (calculate_energy (create_dataframe tl states (m1, m2, l1, l2, g))
        (m1, m2, l1, l2, g)) "V"
      = List.zipWith (fun a b => m1 * g * a + m2 * g * b)
          ((states.map (fun s => s.1)).map (fun a => -l1 * Real.cos a))
          (List.zipWith (fun a b => a - l2 * Real.cos b)
            ((states.map (fun s => s.1)).map (fun a => -l1 * Real.cos a))
            (states.map (fun s => s.2.1))) := rfl
  rw [h]
  simp [List.getD_eq_getElem?_getD, List.getElem?_zipWith, List.getElem?_map,
    List.getElem?_eq_getElem, hi]

/-- The `E` column appended by `calculate_energy` is, per sample, the sum of
the `T` and `V` columns. -/
lemma E_getD (tl : List ℝ) (states : List State) (m1 m2 l1 l2 g : ℝ) (i : ℕ)
    (hi : i < states.length) :
    (getCol (calculate_energy (create_dataframe tl states (m1, m2, l1, l2, g))
        (m1, m2, l1, l2, g)) "E").getD i 0
      = (getCol (calculate_energy (create_dataframe tl states (m1, m2, l1, l2, g))
          (m1, m2, l1, l2, g)) "T").getD i 0
        + (getCol (calculate_energy (create_dataframe tl states (m1, m2, l1, l2, g))
          (m1, m2, l1, l2, g)) "V").getD i 0 := by
  have hT : getCol (calculate_energy (create_dataframe tl states (m1, m2, l1, l2, g))
        (m1, m2, l1, l2, g)) "E"
      = List.zipWith (fun a b => a + b)
          (getCol (calculate_energy (create_dataframe tl states (m1, m2, l1, l2, g))
            (m1, m2, l1, l2, g)) "T")
          (getCol (calculate_energy (create_dataframe tl states (m1, m2, l1, l2, g))
            (m1, m2, l1, l2, g)) "V") := rfl
  rw [hT]
  have hTl : (getCol (calculate_energy (create_dataframe tl states (m1, m2, l1, l2, g))
      (m1, m2, l1, l2, g)) "T").length = states.length := by
    have h : getCol (calculate_energy (create_dataframe tl states (m1, m2, l1, l2, g))
        (m1, m2, l1, l2, g)) "T"
      = List.zipWith (fun a b => 0.5 * m1 * a + 0.5 * m2 * b)
          (List.zipWith (fun a b => a ^ 2 + b ^ 2)
            (List.zipWith (fun a b => l1 * Real.cos a * b)
              (states.map (fun s => s.1)) (states.map (fun s => s.2.2.1)))
            (List.zipWith (fun a b => l1 * Real.sin a * b)
              (states.map (fun s => s.1)) (states.map (fun s => s.2.2.1))))
          (List.zipWith (fun a b => a ^ 2 + b ^ 2)
            (List.zipWith (fun a b => a + b)
              (List.zipWith (fun a b => l1 * Real.cos a * b)
                (states.map (fun s => s.1)) (states.map (fun s => s.2.2.1)))
              (List.zipWith (fun a b => l2 * Real.cos a * b)
                (states.map (fun s => s.2.1)) (states.map (fun s => s.2.2.2))))
            (List.zipWith (fun a b => a + b)
              (List.zipWith (fun a b => l1 * Real.sin a * b)
                (states.map (fun s => s.1)) (states.map (fun s => s.2.2.1)))
              (List.zipWith (fun a b => l2 * Real.sin a * b)
                (states.map (fun s => s.2.1)) (states.map (fun s => s.2.2.2))))) := rfl
    rw [h]
    simp [List.length_zipWith]
  have hVl : (getCol (calculate_energy (create_dataframe tl states (m1, m2, l1, l2, g))
      (m1, m2, l1, l2, g)) "V").length = states.length := by
    have h : getCol (calculate_energy (create_dataframe tl states (m1, m2, l1, l2, g))
        (m1, m2, l1, l2, g)) "V"
      = List.zipWith (fun a b => m1 * g * a + m2 * g * b)
          ((states.map (fun s => s.1)).map (fun a => -l1 * Real.cos a))
          (List.zipWith (fun a b => a - l2 * Real.cos b)
            ((states.map (fun s => s.1)).map (fun a => -l1 * Real.cos a))
            (states.map (fun s => s.2.1))) := rfl
    rw [h]
    simp [List.length_zipWith]
  rw [List.getD_eq_getElem?_getD, List.getElem?_zipWith,
    List.getElem?_eq_getElem (by rw [hTl]; exact hi),
    List.getElem?_eq_getElem (by rw [hVl]; exact hi)]
  simp [List.getD_eq_getElem?_getD, List.getElem?_eq_getElem,
    hTl.symm ▸ hi, hVl.symm ▸ hi]

/-- The `T` column has one entry per state row. -/
lemma T_length (tl : List ℝ) (states : List State) (p : Params) :
    (getCol (calculate_energy (create_dataframe tl states p) p) "T").length
      = states.length := by
  have h : getCol (calculate_energy (create_dataframe tl states p) p) "T"
      = List.zipWith (fun a b => 0.5 * p.1 * a + 0.5 * p.2.1 * b)
          (List.zipWith (fun a b => a ^ 2 + b ^ 2)
            (List.zipWith (fun a b => p.2.2.1 * Real.cos a * b)
              (states.map (fun s => s.1)) (states.map (fun s => s.2.2.1)))
            (List.zipWith (fun a b => p.2.2.1 * Real.sin a * b)
              (states.map (fun s => s.1)) (states.map (fun s => s.2.2.1))))
          (List.zipWith (fun a b => a ^ 2 + b ^ 2)
            (List.zipWith (fun a b => a + b)
              (List.zipWith (fun a b => p.2.2.1 * Real.cos a * b)
                (states.map (fun s => s.1)) (states.map (fun s => s.2.2.1)))
              (List.zipWith (fun a b => p.2.2.2.1 * Real.cos a * b)
                (states.map (fun s => s.2.1)) (states.map (fun s => s.2.2.2))))
            (List.zipWith (fun a b => a + b)
              (List.zipWith (fun a b => p.2.2.1 * Real.sin a * b)
                (states.map (fun s => s.1)) (states.map (fun s => s.2.2.1)))
              (List.zipWith (fun a b => p.2.2.2.1 * Real.sin a * b)
                (states.map (fun s => s.2.1)) (states.map (fun s => s.2.2.2))))) := rfl
  rw [h]
  simp [List.length_zipWith]

/-- The `V` column has one entry per state row. -/
lemma V_length (tl : List ℝ) (states : List State) (p : Params) :
    (getCol (calculate_energy (create_dataframe tl states p) p) "V").length
      = states.length := by
  have h : getCol (calculate_energy (create_dataframe tl states p) p) "V"
      = List.zipWith (fun a b => p.1 * p.2.2.2.2 * a + p.2.1 * p.2.2.2.2 * b)
          ((states.map (fun s => s.1)).map (fun a => -p.2.2.1 * Real.cos a))
          (List.zipWith (fun a b => a - p.2.2.2.1 * Real.cos b)
            ((states.map (fun s => s.1)).map (fun a => -p.2.2.1 * Real.cos a))
            (states.map (fun s => s.2.1))) := rfl
  rw [h]
  simp [List.length_zipWith]

/-- The `E` column has one entry per state row. -/
lemma E_length (tl : List ℝ) (states : List State) (p : Params) :
    (getCol (calculate_energy (create_dataframe tl states p) p) "E").length
      = states.length := by
  have h : getCol (calculate_energy (create_dataframe tl states p) p) "E"
      = List.zipWith (fun a b => a + b)
          (getCol (calculate_energy (create_dataframe tl states p) p) "T")
          (getCol (calculate_energy (create_dataframe tl states p) p) "V") := rfl
  rw [h, List.length_zipWith, T_length tl states p, V_length tl states p, min_self]

/-- Lookups of the kinematic columns are unchanged by `calculate_energy`
(the three energy columns are appended after them). -/
lemma getCol_energy_y1 (tl : List ℝ) (states : List State) (p : Params) :
    getCol (calculate_energy (create_dataframe tl states p) p) "y1"
      = getCol (create_dataframe tl states p) "y1" := rfl

/-- Lookup of `y2` is unchanged by `calculate_energy`. -/
lemma getCol_energy_y2 (tl : List ℝ) (states : List State) (p : Params) :
    getCol (calculate_energy (create_dataframe tl states p) p) "y2"
      = getCol (create_dataframe tl states p) "y2" := rfl

end SimulationAnalyzer

/-- C4: for every trajectory sample, the analyzer computes the Cartesian bob
positions as `x1 = l1·sin θ1`, `y1 = −l1·cos θ1`, `x2 = x1 + l2·sin θ2`,
`y2 = y1 − l2·cos θ2` (pivot at the origin, `y` up, angles from the downward
vertical). -/
theorem C4_bob_positions (tl : List ℝ) (states : List State) (m1 m2 l1 l2 g : ℝ)
    (i : ℕ) (hi : i < states.length) :
    (SimulationAnalyzer.getCol (SimulationAnalyzer.create_dataframe tl states
        (m1, m2, l1, l2, g)) "x1").getD i 0 = l1 * Real.sin (states.get ⟨i, hi⟩).1 ∧
    (SimulationAnalyzer.getCol (SimulationAnalyzer.create_dataframe tl states
        (m1, m2, l1, l2, g)) "y1").getD i 0 = -l1 * Real.cos (states.get ⟨i, hi⟩).1 ∧
    (SimulationAnalyzer.getCol (SimulationAnalyzer.create_dataframe tl states
        (m1, m2, l1, l2, g)) "x2").getD i 0
      = (SimulationAnalyzer.getCol (SimulationAnalyzer.create_dataframe tl states
          (m1, m2, l1, l2, g)) "x1").getD i 0 + l2 * Real.sin (states.get ⟨i, hi⟩).2.1 ∧
    (SimulationAnalyzer.getCol (SimulationAnalyzer.create_dataframe tl states
        (m1, m2, l1, l2, g)) "y2").getD i 0
      = (SimulationAnalyzer.getCol (SimulationAnalyzer.create_dataframe tl states
          (m1, m2, l1, l2, g)) "y1").getD i 0 - l2 * Real.cos (states.get ⟨i, hi⟩).2.1 := by
  refine ⟨SimulationAnalyzer.x1_getD tl states m1 m2 l1 l2 g i hi,
    SimulationAnalyzer.y1_getD tl states m1 m2 l1 l2 g i hi, ?_, ?_⟩
  · rw [SimulationAnalyzer.x2_getD tl states m1 m2 l1 l2 g i hi,
      SimulationAnalyzer.x1_getD tl states m1 m2 l1 l2 g i hi]
  · rw [SimulationAnalyzer.y2_getD tl states m1 m2 l1 l2 g i hi,
      SimulationAnalyzer.y1_getD tl states m1 m2 l1 l2 g i hi]

/-- Witness for `C4_bob_positions` on a one-sample trajectory. -/
theorem C4_bob_positions_witness :
    (0 < ([((0:ℝ), (0:ℝ), (0:ℝ), (0:ℝ))] : List State).length) ∧
    ((SimulationAnalyzer.getCol (SimulationAnalyzer.create_dataframe [(0:ℝ)]
        [((0:ℝ), (0:ℝ), (0:ℝ), (0:ℝ))] (1, 1, 1, 1, 9.81)) "x1").getD 0 0
      = 1 * Real.sin (([((0:ℝ), (0:ℝ), (0:ℝ), (0:ℝ))] : List State).get ⟨0, by decide⟩).1 ∧
    (SimulationAnalyzer.getCol (SimulationAnalyzer.create_dataframe [(0:ℝ)]
        [((0:ℝ), (0:ℝ), (0:ℝ), (0:ℝ))] (1, 1, 1, 1, 9.81)) "y1").getD 0 0
      = -1 * Real.cos (([((0:ℝ), (0:ℝ), (0:ℝ), (0:ℝ))] : List State).get ⟨0, by decide⟩).1 ∧
    (SimulationAnalyzer.getCol (SimulationAnalyzer.create_dataframe [(0:ℝ)]
        [((0:ℝ), (0:ℝ), (0:ℝ), (0:ℝ))] (1, 1, 1, 1, 9.81)) "x2").getD 0 0
      = (SimulationAnalyzer.getCol (SimulationAnalyzer.create_dataframe [(0:ℝ)]
          [((0:ℝ), (0:ℝ), (0:ℝ), (0:ℝ))] (1, 1, 1, 1, 9.81)) "x1").getD 0 0
        + 1 * Real.sin (([((0:ℝ), (0:ℝ), (0:ℝ), (0:ℝ))] : List State).get ⟨0, by decide⟩).2.1 ∧
    (SimulationAnalyzer.getCol (SimulationAnalyzer.create_dataframe [(0:ℝ)]
        [((0:ℝ), (0:ℝ), (0:ℝ), (0:ℝ))] (1, 1, 1, 1, 9.81)) "y2").getD 0 0
      = (SimulationAnalyzer.getCol (SimulationAnalyzer.create_dataframe [(0:ℝ)]
          [((0:ℝ), (0:ℝ), (0:ℝ), (0:ℝ))] (1, 1, 1, 1, 9.81)) "y1").getD 0 0
        - 1 * Real.cos (([((0:ℝ), (0:ℝ), (0:ℝ), (0:ℝ))] : List State).get ⟨0, by decide⟩).2.1) :=
  ⟨by decide, C4_bob_positions [(0:ℝ)] [((0:ℝ), (0:ℝ), (0:ℝ), (0:ℝ))] 1 1 1 1 9.81 0 (by decide)⟩

/-- C5: the analyzer computes the per-sample energies from the closed-form
kinematic velocities `vx1 = l1·cos θ1·ω1`, `vy1 = l1·sin θ1·ω1`,
`vx2 = vx1 + l2·cos θ2·ω2`, `vy2 = vy1 + l2·sin θ2·ω2`, with
`T = ½m1(vx1²+vy1²) + ½m2(vx2²+vy2²)`, `V = m1·g·y1 + m2·g·y2` and
`E = T + V`; `calculate_energy` never calls the physics engine's compiled
energy evaluator. -/
theorem C5_energy_formulas (tl : List ℝ) (states : List State) (m1 m2 l1 l2 g : ℝ)
    (i : ℕ) (hi : i < states.length) :
    (SimulationAnalyzer.getCol (SimulationAnalyzer.calculate_energy
        (SimulationAnalyzer.create_dataframe tl states (m1, m2, l1, l2, g))
        (m1, m2, l1, l2, g)) "T").getD i 0
      = 0.5 * m1 * ((l1 * Real.cos (states.get ⟨i, hi⟩).1 * (states.get ⟨i, hi⟩).2.2.1) ^ 2
          + (l1 * Real.sin (states.get ⟨i, hi⟩).1 * (states.get ⟨i, hi⟩).2.2.1) ^ 2)
        + 0.5 * m2 * ((l1 * Real.cos (states.get ⟨i, hi⟩).1 * (states.get ⟨i, hi⟩).2.2.1
            + l2 * Real.cos (states.get ⟨i, hi⟩).2.1 * (states.get ⟨i, hi⟩).2.2.2) ^ 2
          + (l1 * Real.sin (states.get ⟨i, hi⟩).1 * (states.get ⟨i, hi⟩).2.2.1
            + l2 * Real.sin (states.get ⟨i, hi⟩).2.1 * (states.get ⟨i, hi⟩).2.2.2) ^ 2) ∧
    (SimulationAnalyzer.getCol (SimulationAnalyzer.calculate_energy
        (SimulationAnalyzer.create_dataframe tl states (m1, m2, l1, l2, g))
        (m1, m2, l1, l2, g)) "V").getD i 0
      = m1 * g * ((SimulationAnalyzer.getCol (SimulationAnalyzer.calculate_energy
            (SimulationAnalyzer.create_dataframe tl states (m1, m2, l1, l2, g))
            (m1, m2, l1, l2, g)) "y1").getD i 0)
        + m2 * g * ((SimulationAnalyzer.getCol (SimulationAnalyzer.calculate_energy
            (SimulationAnalyzer.create_dataframe tl states (m1, m2, l1, l2, g))
            (m1, m2, l1, l2, g)) "y2").getD i 0) ∧
    (SimulationAnalyzer.getCol (SimulationAnalyzer.calculate_energy
        (SimulationAnalyzer.create_dataframe tl states (m1, m2, l1, l2, g))
        (m1, m2, l1, l2, g)) "E").getD i 0
      = (SimulationAnalyzer.getCol (SimulationAnalyzer.calculate_energy
          (SimulationAnalyzer.create_dataframe tl states (m1, m2, l1, l2, g))
          (m1, m2, l1, l2, g)) "T").getD i 0
        + (SimulationAnalyzer.getCol (SimulationAnalyzer.calculate_energy
          (SimulationAnalyzer.create_dataframe tl states (m1, m2, l1, l2, g))
          (m1, m2, l1, l2, g)) "V").getD i 0 := by
  refine ⟨SimulationAnalyzer.T_getD tl states m1 m2 l1 l2 g i hi, ?_,
    SimulationAnalyzer.E_getD tl states m1 m2 l1 l2 g i hi⟩
  rw [SimulationAnalyzer.V_getD tl states m1 m2 l1 l2 g i hi,
    SimulationAnalyzer.getCol_energy_y1, SimulationAnalyzer.getCol_energy_y2,
    SimulationAnalyzer.y1_getD tl states m1 m2 l1 l2 g i hi,
    SimulationAnalyzer.y2_getD tl states m1 m2 l1 l2 g i hi]

/-- Witness for `C5_energy_formulas` on a one-sample trajectory. -/
theorem C5_energy_formulas_witness :
    (0 < ([((0:ℝ), (0:ℝ), (0:ℝ), (0:ℝ))] : List State).length) ∧
    ((SimulationAnalyzer.getCol (SimulationAnalyzer.calculate_energy
        (SimulationAnalyzer.create_dataframe [(0:ℝ)]
          [((0:ℝ), (0:ℝ), (0:ℝ), (0:ℝ))] (1, 1, 1, 1, 9.81)) (1, 1, 1, 1, 9.81)) "T").getD 0 0
      = 0.5 * 1 * ((1 * Real.cos (([((0:ℝ), (0:ℝ), (0:ℝ), (0:ℝ))] : List State).get
              ⟨0, by decide⟩).1 * (([((0:ℝ), (0:ℝ), (0:ℝ), (0:ℝ))] : List State).get
              ⟨0, by decide⟩).2.2.1) ^ 2
          + (1 * Real.sin (([((0:ℝ), (0:ℝ), (0:ℝ), (0:ℝ))] : List State).get
              ⟨0, by decide⟩).1 * (([((0:ℝ), (0:ℝ), (0:ℝ), (0:ℝ))] : List State).get
              ⟨0, by decide⟩).2.2.1) ^ 2)
        + 0.5 * 1 * ((1 * Real.cos (([((0:ℝ), (0:ℝ), (0:ℝ), (0:ℝ))] : List State).get
              ⟨0, by decide⟩).1 * (([((0:ℝ), (0:ℝ), (0:ℝ), (0:ℝ))] : List State).get
              ⟨0, by decide⟩).2.2.1
            + 1 * Real.cos (([((0:ℝ), (0:ℝ), (0:ℝ), (0:ℝ))] : List State).get
              ⟨0, by decide⟩).2.1 * (([((0:ℝ), (0:ℝ), (0:ℝ), (0:ℝ))] : List State).get
              ⟨0, by decide⟩).2.2.2) ^ 2
          + (1 * Real.sin (([((0:ℝ), (0:ℝ), (0:ℝ), (0:ℝ))] : List State).get
              ⟨0, by decide⟩).1 * (([((0:ℝ), (0:ℝ), (0:ℝ), (0:ℝ))] : List State).get
              ⟨0, by decide⟩).2.2.1
            + 1 * Real.sin (([((0:ℝ), (0:ℝ), (0:ℝ), (0:ℝ))] : List State).get
              ⟨0, by decide⟩).2.1 * (([((0:ℝ), (0:ℝ), (0:ℝ), (0:ℝ))] : List State).get
              ⟨0, by decide⟩).2.2.2) ^ 2) ∧
    (SimulationAnalyzer.getCol (SimulationAnalyzer.calculate_energy
        (SimulationAnalyzer.create_dataframe [(0:ℝ)]
          [((0:ℝ), (0:ℝ), (0:ℝ), (0:ℝ))] (1, 1, 1, 1, 9.81)) (1, 1, 1, 1, 9.81)) "V").getD 0 0
      = 1 * 9.81 * ((SimulationAnalyzer.getCol (SimulationAnalyzer.calculate_energy
            (SimulationAnalyzer.create_dataframe [(0:ℝ)]
              [((0:ℝ), (0:ℝ), (0:ℝ), (0:ℝ))] (1, 1, 1, 1, 9.81)) (1, 1, 1, 1, 9.81)) "y1").getD 0 0)
        + 1 * 9.81 * ((SimulationAnalyzer.getCol (SimulationAnalyzer.calculate_energy
            (SimulationAnalyzer.create_dataframe [(0:ℝ)]
              [((0:ℝ), (0:ℝ), (0:ℝ), (0:ℝ))] (1, 1, 1, 1, 9.81)) (1, 1, 1, 1, 9.81)) "y2").getD 0 0) ∧
    (SimulationAnalyzer.getCol (SimulationAnalyzer.calculate_energy
        (SimulationAnalyzer.create_dataframe [(0:ℝ)]
          [((0:ℝ), (0:ℝ), (0:ℝ), (0:ℝ))] (1, 1, 1, 1, 9.81)) (1, 1, 1, 1, 9.81)) "E").getD 0 0
      = (SimulationAnalyzer.getCol (SimulationAnalyzer.calculate_energy
          (SimulationAnalyzer.create_dataframe [(0:ℝ)]
            [((0:ℝ), (0:ℝ), (0:ℝ), (0:ℝ))] (1, 1, 1, 1, 9.81)) (1, 1, 1, 1, 9.81)) "T").getD 0 0
        + (SimulationAnalyzer.getCol (SimulationAnalyzer.calculate_energy
          (SimulationAnalyzer.create_dataframe [(0:ℝ)]
            [((0:ℝ), (0:ℝ), (0:ℝ), (0:ℝ))] (1, 1, 1, 1, 9.81)) (1, 1, 1, 1, 9.81)) "V").getD 0 0) :=
  ⟨by decide, C5_energy_formulas [(0:ℝ)] [((0:ℝ), (0:ℝ), (0:ℝ), (0:ℝ))] 1 1 1 1 9.81 0 (by decide)⟩

/-- C6: the analyzer's per-sample total energy coincides exactly (real
arithmetic; hence up to floating-point rounding in the program) with the
compiled `EnergyEvaluator` of the derivation engine at the same arguments,
for every time value `tau` — the two formulations are algebraically equal. -/
theorem C6_cross_evaluator_consistency (tl : List ℝ) (states : List State)
    (m1 m2 l1 l2 g tau : ℝ) (i : ℕ) (hi : i < states.length) :
    (SimulationAnalyzer.getCol (SimulationAnalyzer.calculate_energy
        (SimulationAnalyzer.create_dataframe tl states (m1, m2, l1, l2, g))
        (m1, m2, l1, l2, g)) "E").getD i 0
      = DoublePendulumPhysics.energy_func tau m1 m2 l1 l2 g
          (states.get ⟨i, hi⟩).1 (states.get ⟨i, hi⟩).2.1
          (states.get ⟨i, hi⟩).2.2.1 (states.get ⟨i, hi⟩).2.2.2 := by
  rw [SimulationAnalyzer.E_getD tl states m1 m2 l1 l2 g i hi,
    SimulationAnalyzer.T_getD tl states m1 m2 l1 l2 g i hi,
    SimulationAnalyzer.V_getD tl states m1 m2 l1 l2 g i hi]
  simp only [DoublePendulumPhysics.energy_func]
  ring

/-- Witness for `C6_cross_evaluator_consistency` on a one-sample
trajectory. -/
theorem C6_cross_evaluator_consistency_witness :
    (0 < ([((0:ℝ), (0:ℝ), (0:ℝ), (0:ℝ))] : List State).length) ∧
    (SimulationAnalyzer.getCol (SimulationAnalyzer.calculate_energy
        (SimulationAnalyzer.create_dataframe [(0:ℝ)]
          [((0:ℝ), (0:ℝ), (0:ℝ), (0:ℝ))] (1, 1, 1, 1, 9.81)) (1, 1, 1, 1, 9.81)) "E").getD 0 0
      = DoublePendulumPhysics.energy_func 7 1 1 1 1 9.81
          (([((0:ℝ), (0:ℝ), (0:ℝ), (0:ℝ))] : List State).get ⟨0, by decide⟩).1
          (([((0:ℝ), (0:ℝ), (0:ℝ), (0:ℝ))] : List State).get ⟨0, by decide⟩).2.1
          (([((0:ℝ), (0:ℝ), (0:ℝ), (0:ℝ))] : List State).get ⟨0, by decide⟩).2.2.1
          (([((0:ℝ), (0:ℝ), (0:ℝ), (0:ℝ))] : List State).get ⟨0, by decide⟩).2.2.2 :=
  ⟨by decide, C6_cross_evaluator_consistency [(0:ℝ)] [((0:ℝ), (0:ℝ), (0:ℝ), (0:ℝ))]
    1 1 1 1 9.81 7 0 (by decide)⟩

/-- C7, counterexample: the frame's column order is
`theta1, theta2, omega1, omega2, t, x1, y1, x2, y2, T, V, E` — the pandas
constructor inserts the four state columns first and `df['t'] = t` appends
`t` fifth — which differs from the claimed order that puts `t` first. -/
theorem C7_column_order_counterexample :
    ((SimulationAnalyzer.calculate_energy (SimulationAnalyzer.create_dataframe [(0:ℝ)]
        [((0:ℝ), (0:ℝ), (0:ℝ), (0:ℝ))] (1, 1, 1, 1, 9.81)) (1, 1, 1, 1, 9.81)).map Prod.fst
      = ["theta1", "theta2", "omega1", "omega2", "t", "x1", "y1", "x2", "y2", "T", "V", "E"]) ∧
    (["theta1", "theta2", "omega1", "omega2", "t", "x1", "y1", "x2", "y2", "T", "V", "E"]
      ≠ ["t", "theta1", "theta2", "omega1", "omega2", "x1", "y1", "x2", "y2", "T", "V", "E"]) :=
  ⟨rfl, by decide⟩

/-- C7 (amended): the frame has one record per sampled time and fixed column
order `theta1, theta2, omega1, omega2, t, x1, y1, x2, y2, T, V, E` (`t`
fifth, not first), and `save_csv` writes the frame verbatim in that
order. -/
theorem C7_column_order_amended (tl : List ℝ) (states : List State) (p : Params)
    (hlen : tl.length = states.length) :
    ((SimulationAnalyzer.calculate_energy
        (SimulationAnalyzer.create_dataframe tl states p) p).map Prod.fst
      = ["theta1", "theta2", "omega1", "omega2", "t", "x1", "y1", "x2", "y2", "T", "V", "E"]) ∧
    SimulationAnalyzer.save_csv
        (SimulationAnalyzer.calculate_energy (SimulationAnalyzer.create_dataframe tl states p) p)
      = SimulationAnalyzer.calculate_energy (SimulationAnalyzer.create_dataframe tl states p) p ∧
    (SimulationAnalyzer.calculate_energy
        (SimulationAnalyzer.create_dataframe tl states p) p).map (fun c => c.2.length)
      = List.replicate 12 states.length := by
  refine ⟨rfl, rfl, ?_⟩
  rw [show SimulationAnalyzer.calculate_energy (SimulationAnalyzer.create_dataframe tl states p) p
      = SimulationAnalyzer.create_dataframe tl states p
        ++ [("T", SimulationAnalyzer.getCol (SimulationAnalyzer.calculate_energy
              (SimulationAnalyzer.create_dataframe tl states p) p) "T"),
            ("V", SimulationAnalyzer.getCol (SimulationAnalyzer.calculate_energy
              (SimulationAnalyzer.create_dataframe tl states p) p) "V"),
            ("E", SimulationAnalyzer.getCol (SimulationAnalyzer.calculate_energy
              (SimulationAnalyzer.create_dataframe tl states p) p) "E")] from rfl,
    List.map_append]
  simp only [List.map_cons, List.map_nil, SimulationAnalyzer.T_length,
    SimulationAnalyzer.V_length, SimulationAnalyzer.E_length]
  simp [SimulationAnalyzer.create_dataframe, List.length_zipWith, hlen, min_self,
    List.replicate]

/-- Witness for `C7_column_order_amended` on a one-sample trajectory. -/
theorem C7_column_order_amended_witness :
    ([(0:ℝ)].length = ([((0:ℝ), (0:ℝ), (0:ℝ), (0:ℝ))] : List State).length) ∧
    (((SimulationAnalyzer.calculate_energy (SimulationAnalyzer.create_dataframe [(0:ℝ)]
        [((0:ℝ), (0:ℝ), (0:ℝ), (0:ℝ))] (1, 1, 1, 1, 9.81)) (1, 1, 1, 1, 9.81)).map Prod.fst
      = ["theta1", "theta2", "omega1", "omega2", "t", "x1", "y1", "x2", "y2", "T", "V", "E"]) ∧
    SimulationAnalyzer.save_csv
        (SimulationAnalyzer.calculate_energy (SimulationAnalyzer.create_dataframe [(0:ℝ)]
          [((0:ℝ), (0:ℝ), (0:ℝ), (0:ℝ))] (1, 1, 1, 1, 9.81)) (1, 1, 1, 1, 9.81))
      = SimulationAnalyzer.calculate_energy (SimulationAnalyzer.create_dataframe [(0:ℝ)]
          [((0:ℝ), (0:ℝ), (0:ℝ), (0:ℝ))] (1, 1, 1, 1, 9.81)) (1, 1, 1, 1, 9.81) ∧
    (SimulationAnalyzer.calculate_energy (SimulationAnalyzer.create_dataframe [(0:ℝ)]
        [((0:ℝ), (0:ℝ), (0:ℝ), (0:ℝ))] (1, 1, 1, 1, 9.81)) (1, 1, 1, 1, 9.81)).map
        (fun c => c.2.length)
      = List.replicate 12 ([((0:ℝ), (0:ℝ), (0:ℝ), (0:ℝ))] : List State).length) :=
  ⟨by decide, C7_column_order_amended [(0:ℝ)] [((0:ℝ), (0:ℝ), (0:ℝ), (0:ℝ))]
    (1, 1, 1, 1, 9.81) (by decide)⟩

/-- C8: the compiled acceleration evaluators are time-invariant — the `t`
argument exists only for interface uniformity and the solved expressions do
not mention it, so evaluating at any two times gives identical results. -/
theorem C8_time_invariance (t1 t2 m1 m2 l1 l2 g th1 th2 w1 w2 : ℝ) :
    DoublePendulumPhysics.accel1_f t1 m1 m2 l1 l2 g th1 th2 w1 w2
      = DoublePendulumPhysics.accel1_f t2 m1 m2 l1 l2 g th1 th2 w1 w2 ∧
    DoublePendulumPhysics.accel2_f t1 m1 m2 l1 l2 g th1 th2 w1 w2
      = DoublePendulumPhysics.accel2_f t2 m1 m2 l1 l2 g th1 th2 w1 w2 :=
  ⟨rfl, rfl⟩

/-- C9: the downward rest state `(0, 0, 0, 0)` is a fixed point of the
dynamics — the derivative function handed to the solver evaluates to
`(0, 0, 0, 0)` there, for every parameter assignment and every time. -/
theorem C9_equilibrium_fixed_point (m1 m2 l1 l2 g tau : ℝ) :
    Simulator.deriv m1 m2 l1 l2 g ((0:ℝ), (0:ℝ), (0:ℝ), (0:ℝ)) tau
      = ((0:ℝ), (0:ℝ), (0:ℝ), (0:ℝ)) := by
  simp [Simulator.deriv, DoublePendulumPhysics.accel1_f, DoublePendulumPhysics.accel2_f]

/-- C10: every frame row places bob 1 exactly on the circle of radius `l1`
about the pivot and bob 2 on the circle of radius `l2` about bob 1, for all
angle values. -/
theorem C10_link_length_invariant (tl : List ℝ) (states : List State)
    (m1 m2 l1 l2 g : ℝ) (i : ℕ) (hi : i < states.length) :
    ((SimulationAnalyzer.getCol (SimulationAnalyzer.create_dataframe tl states
        (m1, m2, l1, l2, g)) "x1").getD i 0) ^ 2
      + ((SimulationAnalyzer.getCol (SimulationAnalyzer.create_dataframe tl states
        (m1, m2, l1, l2, g)) "y1").getD i 0) ^ 2 = l1 ^ 2 ∧
    ((SimulationAnalyzer.getCol (SimulationAnalyzer.create_dataframe tl states
        (m1, m2, l1, l2, g)) "x2").getD i 0
      - (SimulationAnalyzer.getCol (SimulationAnalyzer.create_dataframe tl states
        (m1, m2, l1, l2, g)) "x1").getD i 0) ^ 2
      + ((SimulationAnalyzer.getCol (SimulationAnalyzer.create_dataframe tl states
        (m1, m2, l1, l2, g)) "y2").getD i 0
      - (SimulationAnalyzer.getCol (SimulationAnalyzer.create_dataframe tl states
        (m1, m2, l1, l2, g)) "y1").getD i 0) ^ 2 = l2 ^ 2 := by
  rw [SimulationAnalyzer.x1_getD tl states m1 m2 l1 l2 g i hi,
    SimulationAnalyzer.y1_getD tl states m1 m2 l1 l2 g i hi,
    SimulationAnalyzer.x2_getD tl states m1 m2 l1 l2 g i hi,
    SimulationAnalyzer.y2_getD tl states m1 m2 l1 l2 g i hi]
  constructor
  · linear_combination (l1 ^ 2) * Real.sin_sq_add_cos_sq (states.get ⟨i, hi⟩).1
  · linear_combination (l2 ^ 2) * Real.sin_sq_add_cos_sq (states.get ⟨i, hi⟩).2.1

/-- Witness for `C10_link_length_invariant` on a one-sample trajectory. -/
theorem C10_link_length_invariant_witness :
    (0 < ([((0:ℝ), (0:ℝ), (0:ℝ), (0:ℝ))] : List State).length) ∧
    (((SimulationAnalyzer.getCol (SimulationAnalyzer.create_dataframe [(0:ℝ)]
        [((0:ℝ), (0:ℝ), (0:ℝ), (0:ℝ))] (1, 1, 1, 1, 9.81)) "x1").getD 0 0) ^ 2
      + ((SimulationAnalyzer.getCol (SimulationAnalyzer.create_dataframe [(0:ℝ)]
        [((0:ℝ), (0:ℝ), (0:ℝ), (0:ℝ))] (1, 1, 1, 1, 9.81)) "y1").getD 0 0) ^ 2 = 1 ^ 2 ∧
    ((SimulationAnalyzer.getCol (SimulationAnalyzer.create_dataframe [(0:ℝ)]
        [((0:ℝ), (0:ℝ), (0:ℝ), (0:ℝ))] (1, 1, 1, 1, 9.81)) "x2").getD 0 0
      - (SimulationAnalyzer.getCol (SimulationAnalyzer.create_dataframe [(0:ℝ)]
        [((0:ℝ), (0:ℝ), (0:ℝ), (0:ℝ))] (1, 1, 1, 1, 9.81)) "x1").getD 0 0) ^ 2
      + ((SimulationAnalyzer.getCol (SimulationAnalyzer.create_dataframe [(0:ℝ)]
        [((0:ℝ), (0:ℝ), (0:ℝ), (0:ℝ))] (1, 1, 1, 1, 9.81)) "y2").getD 0 0
      - (SimulationAnalyzer.getCol (SimulationAnalyzer.create_dataframe [(0:ℝ)]
        [((0:ℝ), (0:ℝ), (0:ℝ), (0:ℝ))] (1, 1, 1, 1, 9.81)) "y1").getD 0 0) ^ 2 = 1 ^ 2) :=
  ⟨by decide, C10_link_length_invariant [(0:ℝ)] [((0:ℝ), (0:ℝ), (0:ℝ), (0:ℝ))]
    1 1 1 1 9.81 0 (by decide)⟩

end PendulumVisualizer
